import Mathlib

/-
Verification development for the cdflow-cli ETL tool: a shallow embedding of
the plugin-augmented row-mapping pipeline (Mapper + adapters), the job
lifecycle state machine, the rollback core logic, and the plugin
registry/loader, together with theorems settling the specification's claims.

The repository's implementation modules are not part of the available source
tree (only the test suite is), so every definition below is modelled from the
specification's description of the component, kept consistent with the
behavior the unit tests exercise.
-/

namespace CdflowSpec

/-! ## Raw rows and case-insensitive lookup -/

/-- Modelled from the spec: a Raw Row is an ordered mapping from header
string to raw string value (one CSV data row); keys are treated
case-insensitively.  Missing source: the repository's mapper/model modules. -/
abbrev RawRow := List (String × String)

/-- ASCII lowercasing of one character (what `str.lower()` does on the
header alphabet these adapters use). -/
def lowerChar (c : Char) : Char :=
  if 'A' ≤ c ∧ c ≤ 'Z' then Char.ofNat (c.toNat + 32) else c

/-- ASCII lowercasing of a string. -/
def lowerStr (s : String) : String := String.mk (s.data.map lowerChar)

/-- Modelled from the spec: `get_value_case_insensitive` looks a field up via
a lowercased-key table built from the row (later duplicate keys shadow
earlier ones, as in a dict comprehension) and returns `none` when absent.
Missing source: `cdflow_cli.models.donation`. -/
def getValueCaseInsensitive (row : RawRow) (key : String) : Option String :=
  (row.reverse.find? (fun p => lowerStr p.1 == lowerStr key)).map Prod.snd

/-- Modelled from the spec: exact-key lookup used for the underscore-prefixed
control keys plugins inject (`_check_number`, `_skip_row`, ...). -/
def getValueExact (row : RawRow) (key : String) : Option String :=
  (row.reverse.find? (fun p => p.1 == key)).map Prod.snd

/-! ## Logging -/

/-- Log levels relevant to the spec's logging contracts. -/
inductive LogLevel
  | warning
  | info
  | error
deriving DecidableEq, BEq, Repr

/-- One emitted log entry: level and message. -/
abbrev LogEntry := LogLevel × String

/-- `msg` contains `sub` as a contiguous substring. -/
def ContainsSub (msg sub : String) : Prop :=
  ∃ pre post, msg = pre ++ sub ++ post

/-! ## Amount parsing -/

/-- Modelled from the spec: strip currency symbols, thousands separators and
whitespace from an amount field before numeric interpretation. -/
def cleanAmount (s : String) : List Char :=
  s.data.filter (fun c => !(c == '$' || c == ',' || c.isWhitespace))

/-- Numeric value of a digit list, most significant first. -/
def digitsToNat (cs : List Char) : Nat :=
  cs.foldl (fun acc c => acc * 10 + (c.toNat - 48)) 0

/-- Unsigned decimal literal: digits, optionally a dot and more digits, at
least one digit overall.  Returns the mantissa and the number of fractional
digits. -/
def parseDecimalCore (cs : List Char) : Option (Nat × Nat) :=
  let intPart := cs.takeWhile Char.isDigit
  let rest := cs.dropWhile Char.isDigit
  match rest with
  | [] => if intPart.isEmpty then none else some (digitsToNat intPart, 0)
  | '.' :: frac =>
      if frac.all Char.isDigit && !(intPart.isEmpty && frac.isEmpty) then
        some (digitsToNat (intPart ++ frac), frac.length)
      else none
  | _ => none

/-- Signed decimal literal (the numeric forms `float` accepts that the spec's
amount grammar uses): optional sign, then an unsigned decimal literal. -/
def parseDecimal (cs : List Char) : Option (Int × Nat) :=
  match cs with
  | '-' :: rest => (parseDecimalCore rest).map (fun p => (-(p.1 : Int), p.2))
  | '+' :: rest => (parseDecimalCore rest).map (fun p => ((p.1 : Int), p.2))
  | _ => (parseDecimalCore cs).map (fun p => ((p.1 : Int), p.2))

/-- The exact rational value denoted by a parsed decimal: mantissa over
`10 ^ fracDigits`. -/
def decimalRat (m : Int) (f : Nat) : Rat :=
  (m : Rat) / (10 : Rat) ^ f

/-- Round-half-to-even division (banker's rounding of `a / d` for `d > 0`),
computed with integer arithmetic. -/
def roundHalfEvenDiv (a d : Int) : Int :=
  let q := a / d
  let r := a % d
  if 2 * r < d then q
  else if d < 2 * r then q + 1
  else if q % 2 = 0 then q else q + 1

/-- Round-half-to-even on rationals — the semantics of Python's builtin
`round` used by the spec's formula `round(float(cleaned_amount) * 100)`. -/
def specRoundHalfEven (x : Rat) : Int :=
  let n := ⌊x⌋
  if x - n < 1 / 2 then n
  else if 1 / 2 < x - n then n + 1
  else if n % 2 = 0 then n else n + 1

/-- Modelled from the spec: the Mapper's amount policy — strip currency
symbols/commas/whitespace; empty after stripping → 0 with a warning log;
numeric → integer cents `round(value * 100)`; non-numeric after stripping →
raise (modelled as `Except.error`).  Missing source:
`cdflow_cli.models.donation` amount parsing. -/
def parseAmountInCents (s : String) : Except String (Int × List LogEntry) :=
  let cs := cleanAmount s
  if cs.isEmpty then
    .ok (0, [(LogLevel.warning, "Empty amount, defaulting to 0")])
  else
    match parseDecimal cs with
    | some p => .ok (roundHalfEvenDiv (p.1 * 100) ((10 : Int) ^ p.2), [])
    | none => .error ("Invalid amount format: " ++ s)

example : parseAmountInCents "25.00" = .ok (2500, []) := by rfl
example : parseAmountInCents "$1,250.00" = .ok (125000, []) := by rfl
example : parseAmountInCents "-25.00" = .ok (-2500, []) := by rfl
example : parseAmountInCents "" =
    .ok (0, [(LogLevel.warning, "Empty amount, defaulting to 0")]) := by rfl
example : parseAmountInCents "invalid" =
    .error "Invalid amount format: invalid" := by rfl
example : parseAmountInCents "25.015" = .ok (2502, []) := by rfl

/-! ## Timestamps and ISO-8601 rendering -/

/-- A wall-clock timestamp (the model keeps the timezone fixed at UTC, which
the renderer prints as the `+00:00` offset — "always timezone-resolved"). -/
structure DateTime where
  year : Nat
  month : Nat
  day : Nat
  hour : Nat
  minute : Nat
  second : Nat
deriving DecidableEq, Repr

/-- Component ranges under which a `DateTime` renders to a well-formed
ISO-8601 timestamp. -/
def DateTime.Valid (dt : DateTime) : Prop :=
  dt.year < 10000 ∧ 1 ≤ dt.month ∧ dt.month ≤ 12 ∧ 1 ≤ dt.day ∧ dt.day ≤ 31 ∧
    dt.hour < 24 ∧ dt.minute < 60 ∧ dt.second < 60

instance (dt : DateTime) : Decidable dt.Valid := by
  unfold DateTime.Valid; infer_instance

/-- The character for a single decimal digit. -/
def digitChar (n : Nat) : Char := Char.ofNat (48 + n)

/-- Two-digit zero-padded rendering of `n < 100`. -/
def pad2 (n : Nat) : List Char := [digitChar (n / 10), digitChar (n % 10)]

/-- Four-digit zero-padded rendering of `n < 10000`. -/
def pad4 (n : Nat) : List Char := pad2 (n / 100) ++ pad2 (n % 100)

/-- Modelled from the spec: ISO-8601 rendering of a timestamp with an
explicit UTC offset, the format the Mapper stores in `succeeded_at`. -/
def isoRender (dt : DateTime) : String :=
  String.mk (pad4 dt.year ++ '-' :: pad2 dt.month ++ '-' :: pad2 dt.day ++
    'T' :: pad2 dt.hour ++ ':' :: pad2 dt.minute ++ ':' :: pad2 dt.second ++
    ['+', '0', '0', ':', '0', '0'])

/-- Numeric value of two digit characters. -/
def val2 (a b : Char) : Nat := (a.toNat - 48) * 10 + (b.toNat - 48)

/-- Structural validity check for an ISO-8601 timestamp of the form
`YYYY-MM-DDTHH:MM:SS+00:00` with in-range components. -/
def checkISOChars : List Char → Bool
  | [y1, y2, y3, y4, a1, m1, m2, a2, d1, d2, a3,
     h1, h2, a4, n1, n2, a5, s1, s2, a6, z1, z2, a7, z3, z4] =>
      y1.isDigit && y2.isDigit && y3.isDigit && y4.isDigit &&
      (a1 = '-') && m1.isDigit && m2.isDigit && (a2 = '-') &&
      d1.isDigit && d2.isDigit && (a3 = 'T') &&
      h1.isDigit && h2.isDigit && (a4 = ':') &&
      n1.isDigit && n2.isDigit && (a5 = ':') &&
      s1.isDigit && s2.isDigit &&
      (a6 = '+') && (z1 = '0') && (z2 = '0') && (a7 = ':') && (z3 = '0') && (z4 = '0') &&
      (1 ≤ val2 m1 m2) && (val2 m1 m2 ≤ 12) &&
      (1 ≤ val2 d1 d2) && (val2 d1 d2 ≤ 31) &&
      (val2 h1 h2 < 24) && (val2 n1 n2 < 60) && (val2 s1 s2 < 60)
  | _ => false

/-- A string is a valid timezone-bearing ISO-8601 timestamp in the model's
rendering. -/
def isValidISO8601 (s : String) : Bool := checkISOChars s.data

/-! ## Adapter date/time parsing -/

/-- Split a character list on a separator character (like `str.split(sep)`). -/
def splitOnChar (sep : Char) : List Char → List (List Char)
  | [] => [[]]
  | c :: cs =>
      let rest := splitOnChar sep cs
      if c = sep then [] :: rest
      else
        match rest with
        | [] => [[c]]
        | r :: rs => (c :: r) :: rs

/-- Parse a non-empty all-digit character list. -/
def parseNatAll (cs : List Char) : Option Nat :=
  if !cs.isEmpty && cs.all Char.isDigit then some (digitsToNat cs) else none

/-- Modelled from the spec: CanadaHelps date format `YYYY-MM-DD`. -/
def parseYMD (s : String) : Option (Nat × Nat × Nat) :=
  match splitOnChar '-' s.data with
  | [y, mo, d] => do
      let yn ← parseNatAll y
      let mn ← parseNatAll mo
      let dn ← parseNatAll d
      if y.length = 4 ∧ 1 ≤ mn ∧ mn ≤ 12 ∧ 1 ≤ dn ∧ dn ≤ 31 then
        some (yn, mn, dn)
      else none
  | _ => none

/-- Modelled from the spec and adapter tests: CanadaHelps 12-hour time format
`%I:%M %p` (for example `2:30 PM`). -/
def parseTime12 (s : String) : Option (Nat × Nat × Nat) :=
  match splitOnChar ' ' s.data with
  | [hm, ap] =>
      match splitOnChar ':' hm with
      | [h, mi] => do
          let hn ← parseNatAll h
          let mn ← parseNatAll mi
          if 1 ≤ hn ∧ hn ≤ 12 ∧ mn < 60 then
            if ap = ['A', 'M'] then some (if hn = 12 then 0 else hn, mn, 0)
            else if ap = ['P', 'M'] then
              some (if hn = 12 then 12 else hn + 12, mn, 0)
            else none
          else none
      | _ => none
  | _ => none

/-- Modelled from the spec and adapter tests: PayPal date format
`DD/MM/YYYY`. -/
def parseDMY (s : String) : Option (Nat × Nat × Nat) :=
  match splitOnChar '/' s.data with
  | [d, mo, y] => do
      let dn ← parseNatAll d
      let mn ← parseNatAll mo
      let yn ← parseNatAll y
      if y.length = 4 ∧ 1 ≤ mn ∧ mn ≤ 12 ∧ 1 ≤ dn ∧ dn ≤ 31 then
        some (dn, mn, yn)
      else none
  | _ => none

/-- 24-hour time `HH:MM:SS`. -/
def parseTime24 (s : String) : Option (Nat × Nat × Nat) :=
  match splitOnChar ':' s.data with
  | [h, mi, sec] => do
      let hn ← parseNatAll h
      let mn ← parseNatAll mi
      let sn ← parseNatAll sec
      if hn < 24 ∧ mn < 60 ∧ sn < 60 then some (hn, mn, sn) else none
  | _ => none

/-- CanadaHelps combined date+time parser. -/
def parseCHDateTime (d t : String) : Option DateTime := do
  let (y, mo, da) ← parseYMD d
  let (h, mi, s) ← parseTime12 t
  pure ⟨y, mo, da, h, mi, s⟩

/-- PayPal combined date+time parser. -/
def parsePPDateTime (d t : String) : Option DateTime := do
  let (da, mo, y) ← parseDMY d
  let (h, mi, s) ← parseTime24 t
  pure ⟨y, mo, da, h, mi, s⟩

/-! ## Name splitting (PayPal) -/

/-- Whitespace word-split (like Python's no-argument `str.split()`): runs of
whitespace separate words, leading/trailing whitespace ignored. -/
def wordsAux : List Char → List Char → List String
  | [], acc => if acc.isEmpty then [] else [String.mk acc.reverse]
  | c :: cs, acc =>
      if c.isWhitespace then
        if acc.isEmpty then wordsAux cs []
        else String.mk acc.reverse :: wordsAux cs []
      else wordsAux cs (c :: acc)

/-- The whitespace-separated tokens of a string. -/
def nameTokens (s : String) : List String := wordsAux s.data []

/-- Modelled from the spec and PayPal tests: canonical first name is the
first whitespace token of the Name field, canonical last name the last token
when there are at least two tokens, otherwise empty. -/
def splitName (name : String) : String × String :=
  let parts := nameTokens name
  (parts.headD "", if 2 ≤ parts.length then parts.getLastD "" else "")

/-! ## Plugins: row transformers -/

/-- A row-transformer plugin: may rewrite the row dict or raise (modelled as
`Except.error`). -/
abbrev RowPlugin := RawRow → Except String RawRow

/-- Modelled from the spec: run every registered row-transformer in order;
a plugin that raises is logged with its name and skipped, the next plugin
continuing from the row state as of before the failing plugin's attempted
mutation.  No exception propagates. -/
def runRowTransformers : List (String × RowPlugin) → RawRow → RawRow × List LogEntry
  | [], row => (row, [])
  | (name, f) :: rest, row =>
      match f row with
      | .ok row2 => runRowTransformers rest row2
      | .error e =>
          let r := runRowTransformers rest row
          (r.1, (LogLevel.error,
            "Error in row transformer plugin " ++ name ++ ": " ++ e) :: r.2)

/-! ## Adapter configuration and Mapper construction -/

/-- The per-adapter data the base Mapper consumes: field-name mappings, the
date/time parser for the adapter's documented formats, and the adapter's
name-extraction rule. -/
structure AdapterCfg where
  amountField : String
  dateField : String
  timeField : String
  txnField : String
  emailField : String
  extractNames : RawRow → String × String
  parseDate : String → String → Option DateTime

/-- The CanadaHelps adapter's field mappings. -/
def canadaHelpsCfg : AdapterCfg where
  amountField := "AMOUNT"
  dateField := "DONATION DATE"
  timeField := "DONATION TIME"
  txnField := "TRANSACTION NUMBER"
  emailField := "DONOR EMAIL ADDRESS"
  extractNames := fun row =>
    ((getValueCaseInsensitive row "DONOR FIRST NAME").getD "",
     (getValueCaseInsensitive row "DONOR LAST NAME").getD "")
  parseDate := parseCHDateTime

/-- The PayPal adapter's field mappings. -/
def payPalCfg : AdapterCfg where
  amountField := "Gross"
  dateField := "Date"
  timeField := "Time"
  txnField := "Transaction ID"
  emailField := "From Email Address"
  extractNames := fun row => splitName ((getValueCaseInsensitive row "Name").getD "")
  parseDate := parsePPDateTime

/-- The canonical donation record the Mapper produces (the canonical fields
the claims are about). -/
structure DonationRecord where
  firstName : String
  lastName : String
  email : String
  amountInCents : Int
  succeededAt : String
  checkNumber : Option String
  skipRow : Bool
deriving DecidableEq, Repr

/-- Modelled from the spec: the Mapper's date step — on date and time both
missing, log one warning citing the record's transaction identifier plus an
info-level fallback message and use the current time; on a present but
unparsable value, fall back to the current time with an info log only; never
raise. -/
def dateLogic (cfg : AdapterCfg) (row : RawRow) (now : DateTime) :
    String × List LogEntry :=
  let txn := (getValueCaseInsensitive row cfg.txnField).getD ""
  match getValueCaseInsensitive row cfg.dateField,
        getValueCaseInsensitive row cfg.timeField with
  | none, none =>
      (isoRender now,
       [(LogLevel.warning, "Missing date or time for record " ++ txn),
        (LogLevel.info, "MISSING DATA FALLBACK: using current time for record " ++ txn)])
  | d, t =>
      match cfg.parseDate (d.getD "") (t.getD "") with
      | some dt => (isoRender dt, [])
      | none =>
          (isoRender now,
           [(LogLevel.info, "DATE PARSE FALLBACK: using current time for record " ++ txn)])

/-- Modelled from the spec: Mapper construction — run the registered
row-transformer plugins (isolated), parse the amount (empty → 0 with warning,
non-numeric → raise), resolve the date with its never-raising fallback, then
populate canonical fields honoring the plugin override keys; `_skip_row` is
recorded, never interpreted, by the Mapper.  Missing source:
`cdflow_cli.models.donation` and the adapter mapper subclasses. -/
def buildMapper (cfg : AdapterCfg) (plugins : List (String × RowPlugin))
    (row : RawRow) (now : DateTime) :
    Except String DonationRecord × List LogEntry :=
  let tr := runRowTransformers plugins row
  let row2 := tr.1
  match parseAmountInCents ((getValueCaseInsensitive row2 cfg.amountField).getD "") with
  | .error e => (.error e, tr.2)
  | .ok ares =>
      let dres := dateLogic cfg row2 now
      let names := cfg.extractNames row2
      (.ok { firstName := names.1
             lastName := names.2
             email := (getValueCaseInsensitive row2 cfg.emailField).getD ""
             amountInCents := ares.1
             succeededAt := dres.1
             checkNumber := getValueExact row2 "_check_number"
             skipRow := getValueExact row2 "_skip_row" == some "True" },
       tr.2 ++ ares.2 ++ dres.2)

/-! ## Row validation -/

/-- Comma-separated rendering of a list of field names. -/
def joinComma : List String → String
  | [] => ""
  | [x] => x
  | x :: xs => x ++ ", " ++ joinComma xs

/-- Modelled from the spec: `validate_row` checks presence of the adapter's
required header names case-insensitively and returns one combined error
message listing all missing fields; the PayPal adapter additionally requires
at least one of Name and Email to be non-empty.  Missing source: the adapter
mapper modules. -/
def validateRow (required : List String) (payPalNameEmailRule : Bool)
    (row : RawRow) : Bool × Option String :=
  let missing := required.filter (fun f => (getValueCaseInsensitive row f).isNone)
  if !missing.isEmpty then
    (false, some ("Missing required fields: " ++ joinComma missing))
  else if payPalNameEmailRule &&
      ((getValueCaseInsensitive row "Name").getD "").isEmpty &&
      ((getValueCaseInsensitive row "From Email Address").getD "").isEmpty then
    (false, some "Either Name or Email must have a value")
  else (true, none)

/-- CanadaHelps required header names (consistent with the adapter tests). -/
def chRequiredFields : List String :=
  ["DONOR FIRST NAME", "DONOR LAST NAME", "DONOR EMAIL ADDRESS", "AMOUNT",
   "DONATION DATE", "DONATION TIME", "TRANSACTION NUMBER"]

/-- PayPal required header names (consistent with the adapter tests). -/
def ppRequiredFields : List String :=
  ["Date", "Time", "Name", "Type", "Status", "Gross", "From Email Address"]

/-- Generic-adapter required header names (consistent with the adapter
tests). -/
def genericRequiredFields : List String :=
  ["email", "amount", "donation_date", "first_name", "last_name"]

/-! ## Job lifecycle -/

/-- Job lifecycle states. -/
inductive JobStatus
  | pending
  | running
  | completed
  | failed
deriving DecidableEq, BEq, Repr

/-- `completed` and `failed` are the two terminal states. -/
def JobStatus.isTerminal : JobStatus → Bool
  | .completed => true
  | .failed => true
  | _ => false

/-- The mutable per-job state the Job Manager tracks. -/
structure Job where
  jobId : String
  userId : String
  nationSlug : String
  status : JobStatus
  progress : Nat
  errorMessage : Option String
deriving DecidableEq, Repr

/-- Modelled from the spec: `create_job` yields a fresh job with status
`pending` and zero progress.  Missing source: `cdflow_cli.jobs.manager`. -/
def createJob (jobId userId nationSlug : String) : Job :=
  { jobId := jobId, userId := userId, nationSlug := nationSlug,
    status := .pending, progress := 0, errorMessage := none }

/-- Modelled from the spec: status updates never transition a job out of a
terminal state (`completed`/`failed` are terminal). -/
def updateJobStatus (j : Job) (s : JobStatus) (p : Nat) : Job :=
  if j.status.isTerminal then j else { j with status := s, progress := p }

/-- Modelled from the spec: `abort_job` is valid only from `pending` or
`running`, in which case it returns `True` and moves the job directly to
`failed` with a user-cancellation message; otherwise it returns `False` and
leaves the job unchanged. -/
def abortJob (j : Job) : Bool × Job :=
  if j.status = .pending ∨ j.status = .running then
    (true, { j with status := .failed, errorMessage := some "Job aborted by user" })
  else (false, j)

/-- A job already in the terminal `completed` state, for concrete checks. -/
def completedJob : Job where
  jobId := "1"
  userId := "u"
  nationSlug := "n"
  status := JobStatus.completed
  progress := 100
  errorMessage := none

/-- A job already in the terminal `failed` state, for concrete checks. -/
def failedJob : Job where
  jobId := "2"
  userId := "u"
  nationSlug := "n"
  status := JobStatus.failed
  progress := 10
  errorMessage := none

/-- The status-mutating operations the Job Manager exposes on one job. -/
inductive JobOp
  | update (s : JobStatus) (p : Nat)
  | abort

/-- Apply one operation to a job. -/
def applyJobOp (j : Job) : JobOp → Job
  | .update s p => updateJobStatus j s p
  | .abort => (abortJob j).2

/-- Apply a sequence of operations to a job. -/
def applyJobOps (j : Job) (ops : List JobOp) : Job := ops.foldl applyJobOp j

/-! ## Job snapshots and sanitization -/

/-- A value in the job's JSON-like snapshot dictionary. -/
inductive JVal
  | s (v : String)
  | n (v : Nat)
  | tokens (v : List (String × String))
  | null
deriving DecidableEq, Repr

/-- Modelled from the spec: the internal job dictionary `create_job` stores,
including the OAuth token bundle when one was supplied. -/
def createJobDict (jobId userId nationSlug fileId storagePath sourceType : String)
    (oauthTokens : Option (List (String × String))) : List (String × JVal) :=
  [("job_id", .s jobId), ("user_id", .s userId), ("nation_slug", .s nationSlug),
   ("file_id", .s fileId), ("storage_path", .s storagePath),
   ("source_type", .s sourceType), ("status", .s "pending"), ("progress", .n 0)] ++
  (match oauthTokens with
   | some t => [("oauth_tokens", .tokens t)]
   | none => [])

/-- Modelled from the spec: sanitization removes the `oauth_tokens` key from
any externally-visible job snapshot. -/
def sanitizeJob (d : List (String × JVal)) : List (String × JVal) :=
  d.filter (fun p => p.1 ≠ "oauth_tokens")

/-- Modelled from the spec: `get_job_status` returns the sanitized snapshot
of the stored job dictionary. -/
def getJobStatusSnapshot (d : List (String × JVal)) : List (String × JVal) :=
  sanitizeJob d

/-- First-match lookup in a snapshot dictionary. -/
def dictLookup (d : List (String × JVal)) (k : String) : Option JVal :=
  (d.find? (fun p => p.1 == k)).map Prod.snd

/-! ## Rollback core logic -/

/-- What one rollback run produced: the augmented rows written to the
rollback output file, the success/fail tallies, and the sequence of rows
passed to `process_rollback_row`, in call order. -/
structure RollbackResult where
  outputs : List RawRow
  successCount : Nat
  failCount : Nat
  calls : List RawRow
deriving Repr

/-- A rollback-capable service: `process_rollback_row(row, import_type)`
returning `(success, message)`. -/
abbrev RollbackService := RawRow → String → Bool × String

/-- Append the returned message to a row under the rollback output file's
error-message column. -/
def augmentRow (row : RawRow) (msg : String) : RawRow :=
  row ++ [("NB Error Message", msg)]

/-- Process an already-reversed row list front to back, calling the service
once per row and appending each augmented row to the output. -/
def processRollbackRows (service : RollbackService) (importType : String) :
    List RawRow → RollbackResult
  | [] => ⟨[], 0, 0, []⟩
  | r :: rest =>
      let res := service r importType
      let tail := processRollbackRows service importType rest
      ⟨augmentRow r res.2 :: tail.outputs,
       (if res.1 then 1 else 0) + tail.successCount,
       (if res.1 then 0 else 1) + tail.failCount,
       r :: tail.calls⟩

/-- Modelled from the spec: the rollback core iterates the success CSV's data
rows in reverse of their original order, calls `process_rollback_row` once
per row, appends the error-message column and writes each augmented row to
the rollback output.  Missing source: `cdflow_cli.cli.commands_rollback`. -/
def processRollbackData (service : RollbackService) (importType : String)
    (rows : List RawRow) : RollbackResult :=
  processRollbackRows service importType rows.reverse

/-- Modelled from the spec: the rollback operation's outcome — an empty
input (zero data rows) is a hard failure (exit code 1) with no row processed
and nothing written; otherwise it processes every row and exits 0 even when
every row's rollback failed.  Missing source:
`cdflow_cli.cli.commands_rollback.run_rollback_cli`. -/
def runRollbackCore (service : RollbackService) (importType : String)
    (rows : List RawRow) : Nat × RollbackResult :=
  if rows.isEmpty then (1, ⟨[], 0, 0, []⟩)
  else (0, processRollbackData service importType rows)

/-! ## Plugin registry and loader -/

/-- One registration a plugin file performs: plugin type, plugin name, and
the callable (the model carries row transformers; other plugin types would
simply never be selected by a row-transformer lookup). -/
structure Registration where
  ptype : String
  pname : String
  fn : RowPlugin

/-- A candidate plugin source file: its file name and either the
registrations its top-level code performs, or a load-time error. -/
structure PluginFile where
  fname : String
  content : Except String (List Registration)

/-- Does the file name start with an underscore (a disabled plugin)? -/
def startsUnderscore (s : String) : Bool :=
  match s.data with
  | c :: _ => c = '_'
  | [] => false

/-- Lexicographic comparison on character lists. -/
def leChars : List Char → List Char → Bool
  | [], _ => true
  | _ :: _, [] => false
  | a :: as, b :: bs =>
      if a = b then leChars as bs else decide (a.toNat < b.toNat)

/-- Alphabetical (lexicographic) order on file names. -/
def fileLe (a b : PluginFile) : Bool := leChars a.fname.data b.fname.data

/-- Insert into an alphabetically sorted file list. -/
def insertFile (f : PluginFile) : List PluginFile → List PluginFile
  | [] => [f]
  | g :: gs => if fileLe f g then f :: g :: gs else g :: insertFile f gs

/-- Alphabetical insertion sort of plugin files (the Loader's directory
enumeration order). -/
def sortFiles : List PluginFile → List PluginFile
  | [] => []
  | f :: fs => insertFile f (sortFiles fs)

/-- Modelled from the spec: the Loader enumerates the plugin files in
alphabetical order, skips names starting with an underscore, executes each
remaining file isolating and logging per-file failures, appends its
registrations to the registry, and counts the files that loaded without
error.  Missing source: `cdflow_cli.plugins.loader`. -/
def loadSorted : List PluginFile → List Registration × Nat × List LogEntry
  | [] => ([], 0, [])
  | f :: fs =>
      let rest := loadSorted fs
      if startsUnderscore f.fname then rest
      else
        match f.content with
        | .error e =>
            (rest.1, rest.2.1,
             (LogLevel.error, "Error loading plugin file " ++ f.fname ++ ": " ++ e)
               :: rest.2.2)
        | .ok regs => (regs ++ rest.1, rest.2.1 + 1, rest.2.2)

/-- Load a directory's plugin files: sort alphabetically, then load. -/
def loadPlugins (files : List PluginFile) : List Registration × Nat × List LogEntry :=
  loadSorted (sortFiles files)

/-- Registry lookup of one plugin type, in registration order, as
`(name, fn)` pairs. -/
def getPluginsOfType (regs : List Registration) (ptype : String) :
    List (String × RowPlugin) :=
  (regs.filter (fun r => r.ptype == ptype)).map (fun r => (r.pname, r.fn))

/-- A row-transformer that blanks ANON values, for concrete checks. -/
def pluginAnon : RowPlugin := fun row =>
  .ok (row.map (fun p => if p.2 == "ANON" then (p.1, "") else p))

/-- A row-transformer that defaults an empty email, for concrete checks. -/
def pluginDefaults : RowPlugin := fun row =>
  if ((getValueCaseInsensitive row "DONOR EMAIL ADDRESS").getD "").isEmpty then
    .ok (row ++ [("DONOR EMAIL ADDRESS", "anonymous@donations.local")])
  else .ok row

/-- A row-transformer that always raises, for concrete checks. -/
def pluginBroken : RowPlugin := fun _ => .error "Intentional error for testing"

/-- Plugin file registering `pluginAnon`, first in alphabetical order. -/
def pluginFileA : PluginFile :=
  ⟨"01_sanitize.py", .ok [⟨"row_transformer", "sanitize_anon", pluginAnon⟩]⟩

/-- Plugin file registering `pluginDefaults`, second in alphabetical order. -/
def pluginFileB : PluginFile :=
  ⟨"02_defaults.py", .ok [⟨"row_transformer", "set_defaults", pluginDefaults⟩]⟩

/-- An anonymous-donor row for the plugin-ordering check. -/
def anonRow : RawRow :=
  [("DONOR FIRST NAME", "Jane"), ("DONOR LAST NAME", "Doe"),
   ("DONOR EMAIL ADDRESS", "ANON"), ("AMOUNT", "50.00"),
   ("TRANSACTION NUMBER", "TEST456")]

/-- `anonRow` after `pluginAnon` has blanked the ANON value. -/
def anonRow1 : RawRow :=
  [("DONOR FIRST NAME", "Jane"), ("DONOR LAST NAME", "Doe"),
   ("DONOR EMAIL ADDRESS", ""), ("AMOUNT", "50.00"),
   ("TRANSACTION NUMBER", "TEST456")]

/-- `anonRow1` after `pluginDefaults` has appended the default email. -/
def anonRow2 : RawRow :=
  [("DONOR FIRST NAME", "Jane"), ("DONOR LAST NAME", "Doe"),
   ("DONOR EMAIL ADDRESS", ""), ("AMOUNT", "50.00"),
   ("TRANSACTION NUMBER", "TEST456"),
   ("DONOR EMAIL ADDRESS", "anonymous@donations.local")]

/-! ## Sample data for concrete checks -/

/-- A valid CanadaHelps data row, as in the adapter tests. -/
def sampleCHRow : RawRow :=
  [("DONOR FIRST NAME", "John"), ("DONOR LAST NAME", "Doe"),
   ("DONOR EMAIL ADDRESS", "john@example.com"), ("AMOUNT", "25.00"),
   ("DONATION DATE", "2024-01-15"), ("DONATION TIME", "2:30 PM"),
   ("TRANSACTION NUMBER", "CH-123456")]

/-- The same CanadaHelps row with the date and time fields removed. -/
def sampleCHRowNoDate : RawRow :=
  [("DONOR FIRST NAME", "John"), ("DONOR LAST NAME", "Doe"),
   ("DONOR EMAIL ADDRESS", "john@example.com"), ("AMOUNT", "25.00"),
   ("TRANSACTION NUMBER", "CH-123456")]

/-- The same CanadaHelps row with an unparsable date value. -/
def sampleCHRowBadDate : RawRow :=
  [("DONOR FIRST NAME", "John"), ("DONOR LAST NAME", "Doe"),
   ("DONOR EMAIL ADDRESS", "john@example.com"), ("AMOUNT", "25.00"),
   ("DONATION DATE", "invalid-date"), ("DONATION TIME", "2:30 PM"),
   ("TRANSACTION NUMBER", "CH-123456")]

/-- A valid PayPal data row, as in the adapter tests. -/
def samplePPRow : RawRow :=
  [("Date", "15/01/2024"), ("Time", "14:30:00"), ("Name", "Dr. John Smith Jr."),
   ("Type", "Donation"), ("Status", "Completed"), ("Gross", "25.00"),
   ("From Email Address", "john@example.com"), ("Transaction ID", "PP-123456")]

/-- An incomplete CanadaHelps row missing most required fields. -/
def incompleteCHRow : RawRow :=
  [("DONOR FIRST NAME", "John"), ("DONOR LAST NAME", "Doe")]

/-- The sample CanadaHelps row with an empty AMOUNT field. -/
def sampleCHRowEmptyAmount : RawRow :=
  [("DONOR FIRST NAME", "John"), ("DONOR LAST NAME", "Doe"),
   ("DONOR EMAIL ADDRESS", "john@example.com"), ("AMOUNT", ""),
   ("DONATION DATE", "2024-01-15"), ("DONATION TIME", "2:30 PM"),
   ("TRANSACTION NUMBER", "CH-123456")]

/-- The sample CanadaHelps row with a non-numeric AMOUNT field. -/
def sampleCHRowBadAmount : RawRow :=
  [("DONOR FIRST NAME", "John"), ("DONOR LAST NAME", "Doe"),
   ("DONOR EMAIL ADDRESS", "john@example.com"), ("AMOUNT", "invalid"),
   ("DONATION DATE", "2024-01-15"), ("DONATION TIME", "2:30 PM"),
   ("TRANSACTION NUMBER", "CH-123456")]

/-- A wall-clock time used as the current time in concrete fallback checks. -/
def sampleNow : DateTime := ⟨2024, 6, 1, 12, 0, 0⟩

/-! ## Supporting lemmas: rounding -/

/-- Integer half-even rounding of `a / d` agrees with rational
round-half-to-even of the exact quotient. -/
theorem roundHalfEvenDiv_eq_specRound (a : Int) (d : Nat) (hd : 0 < d) :
    roundHalfEvenDiv a (d : Int) = specRoundHalfEven ((a : Rat) / (d : Rat)) := by
  have hdQ : (0 : Rat) < (d : Rat) := by exact_mod_cast hd
  have hdZ : (0 : Int) < (d : Int) := by exact_mod_cast hd
  have hfloor : ⌊(a : Rat) / (d : Rat)⌋ = a / (d : Int) := by
    exact_mod_cast Rat.floor_intCast_div_natCast a d
  have hmod : (d : Int) * (a / (d : Int)) + a % (d : Int) = a := Int.ediv_add_emod a d
  have hfrac : (a : Rat) / (d : Rat) - ((a / (d : Int) : Int) : Rat)
      = ((a % (d : Int) : Int) : Rat) / (d : Rat) := by
    have h : ((d : Int) : Rat) * ((a / (d : Int) : Int) : Rat)
        + ((a % (d : Int) : Int) : Rat) = (a : Rat) := by
      exact_mod_cast congrArg (Int.cast : Int → Rat) hmod
    field_simp
    push_cast at h ⊢
    linarith
  have hiffLt : ((a % (d : Int) : Int) : Rat) / (d : Rat) < 1 / 2 ↔
      2 * (a % (d : Int)) < (d : Int) := by
    rw [div_lt_div_iff₀ hdQ (by norm_num : (0 : Rat) < 2), one_mul, mul_comm]
    exact_mod_cast Iff.rfl
  have hiffGt : (1 / 2 : Rat) < ((a % (d : Int) : Int) : Rat) / (d : Rat) ↔
      (d : Int) < 2 * (a % (d : Int)) := by
    rw [div_lt_div_iff₀ (by norm_num : (0 : Rat) < 2) hdQ, one_mul, mul_comm]
    exact_mod_cast Iff.rfl
  simp only [roundHalfEvenDiv, specRoundHalfEven, hfloor, hfrac]
  simp only [hiffLt, hiffGt]

/-- The parsed-amount cents value equals the spec's rounding formula over the
decimal's exact rational value. -/
theorem cents_eq_specRound (m : Int) (f : Nat) :
    roundHalfEvenDiv (m * 100) ((10 : Int) ^ f) =
      specRoundHalfEven (decimalRat m f * 100) := by
  have h10 : ((10 : Int) ^ f) = ((10 ^ f : Nat) : Int) := by push_cast; ring
  have hpos : 0 < 10 ^ f := Nat.pos_pow_of_pos f (by norm_num)
  rw [h10, roundHalfEvenDiv_eq_specRound _ _ hpos]
  congr 1
  unfold decimalRat
  push_cast
  ring

/-! ## Supporting lemmas: ISO-8601 rendering -/

/-- For a digit `k < 10`, `digitChar k` is a digit character whose numeric
value is `k`. -/
theorem digitChar_spec (k : Nat) (h : k < 10) :
    (digitChar k).isDigit = true ∧ (digitChar k).toNat - 48 = k := by
  have : ∀ k, k < 10 → (digitChar k).isDigit = true ∧ (digitChar k).toNat - 48 = k := by
    decide
  exact this k h

/-- The two characters of `pad2 n` are digits and decode back to `n`. -/
theorem pad2_spec (n : Nat) (h : n < 100) :
    (digitChar (n / 10)).isDigit = true ∧ (digitChar (n % 10)).isDigit = true ∧
      val2 (digitChar (n / 10)) (digitChar (n % 10)) = n := by
  have h1 : n / 10 < 10 := by omega
  have h2 : n % 10 < 10 := Nat.mod_lt _ (by norm_num)
  obtain ⟨e1, e2⟩ := digitChar_spec _ h1
  obtain ⟨e3, e4⟩ := digitChar_spec _ h2
  refine ⟨e1, e3, ?_⟩
  unfold val2
  rw [e2, e4]
  omega

/-- A valid timestamp renders to a string the ISO-8601 checker accepts. -/
theorem isoRender_valid (dt : DateTime) (h : dt.Valid) :
    isValidISO8601 (isoRender dt) = true := by
  obtain ⟨hy, hm1, hm2, hd1, hd2, hh, hmi, hs⟩ := h
  have hy1 : dt.year / 100 < 100 := by omega
  have hy2 : dt.year % 100 < 100 := Nat.mod_lt _ (by norm_num)
  have hmo : dt.month < 100 := by omega
  have hda : dt.day < 100 := by omega
  have hho : dt.hour < 100 := by omega
  have hmin : dt.minute < 100 := by omega
  have hsec : dt.second < 100 := by omega
  obtain ⟨y1d, y2d, -⟩ := pad2_spec _ hy1
  obtain ⟨y3d, y4d, -⟩ := pad2_spec _ hy2
  obtain ⟨m1d, m2d, mval⟩ := pad2_spec _ hmo
  obtain ⟨d1d, d2d, dval⟩ := pad2_spec _ hda
  obtain ⟨h1d, h2d, hval⟩ := pad2_spec _ hho
  obtain ⟨n1d, n2d, nval⟩ := pad2_spec _ hmin
  obtain ⟨s1d, s2d, sval⟩ := pad2_spec _ hsec
  unfold isValidISO8601 isoRender pad4 pad2
  simp only [List.cons_append, List.nil_append]
  rw [checkISOChars]
  simp only [Bool.and_eq_true, decide_eq_true_eq]
  rw [mval, dval, hval, nval, sval]
  simp_all

/-! ## Supporting lemmas: rollback core -/

/-- The rows passed to the service are exactly the processed list, in
order. -/
theorem processRollbackRows_calls (service : RollbackService) (t : String)
    (l : List RawRow) : (processRollbackRows service t l).calls = l := by
  induction l with
  | nil => rfl
  | cons r rest ih => simp [processRollbackRows, ih]

/-- Every processed row is written out augmented with the service's
message. -/
theorem processRollbackRows_outputs (service : RollbackService) (t : String)
    (l : List RawRow) :
    (processRollbackRows service t l).outputs =
      l.map (fun r => augmentRow r (service r t).2) := by
  induction l with
  | nil => rfl
  | cons r rest ih => simp [processRollbackRows, ih]

/-- When the service fails on every row, the tallies are zero successes and
one failure per row. -/
theorem processRollbackRows_allfail (service : RollbackService) (t : String)
    (l : List RawRow) (h : ∀ r, (service r t).1 = false) :
    (processRollbackRows service t l).successCount = 0 ∧
      (processRollbackRows service t l).failCount = l.length := by
  induction l with
  | nil => exact ⟨rfl, rfl⟩
  | cons r rest ih =>
      simp [processRollbackRows, h r, ih.1, ih.2]
      omega

/-! ## Claim theorems -/

/-- C3: for a success CSV with at least one data row, the rollback core
invokes `process_rollback_row` exactly once per row in strictly reverse file
order (the call sequence is the reversed row list, so call `i` gets row
`n - 1 - i`), and appends every processed row, augmented with the returned
error-message column, to the rollback output. -/
theorem c3_rollback_reverse_order (service : RollbackService)
    (importType : String) (rows : List RawRow) (_hn : 1 ≤ rows.length) :
    (processRollbackData service importType rows).calls = rows.reverse ∧
    (processRollbackData service importType rows).calls.length = rows.length ∧
    (∀ i, i < rows.length →
      (processRollbackData service importType rows).calls.getD i [] =
        rows.getD (rows.length - 1 - i) []) ∧
    (processRollbackData service importType rows).outputs =
      (processRollbackData service importType rows).calls.map
        (fun r => augmentRow r (service r importType).2) := by
  have hc : (processRollbackData service importType rows).calls = rows.reverse :=
    processRollbackRows_calls service importType rows.reverse
  refine ⟨hc, ?_, ?_, ?_⟩
  · rw [hc, List.length_reverse]
  · intro i hi
    rw [hc]
    have hi' : i < rows.reverse.length := by simpa using hi
    have hj : rows.length - 1 - i < rows.length := by omega
    rw [List.getD_eq_getElem _ _ hi', List.getD_eq_getElem _ _ hj,
      List.getElem_reverse]
  · rw [hc]
    exact processRollbackRows_outputs service importType rows.reverse

/-- Witness for C3 at a concrete 3-row success CSV. -/
theorem c3_rollback_reverse_order_witness :
    (1 ≤ ([[("Email", "a@x")], [("Email", "b@x")], [("Email", "c@x")]] : List RawRow).length) ∧
    ((processRollbackData (fun r _ => (true, "ok " ++ ((getValueCaseInsensitive r "Email").getD "")))
        "CanadaHelps" [[("Email", "a@x")], [("Email", "b@x")], [("Email", "c@x")]]).calls =
      ([[("Email", "a@x")], [("Email", "b@x")], [("Email", "c@x")]] : List RawRow).reverse ∧
     (processRollbackData (fun r _ => (true, "ok " ++ ((getValueCaseInsensitive r "Email").getD "")))
        "CanadaHelps" [[("Email", "a@x")], [("Email", "b@x")], [("Email", "c@x")]]).calls.length = 3 ∧
     (∀ i, i < 3 →
       (processRollbackData (fun r _ => (true, "ok " ++ ((getValueCaseInsensitive r "Email").getD "")))
          "CanadaHelps" [[("Email", "a@x")], [("Email", "b@x")], [("Email", "c@x")]]).calls.getD i [] =
         ([[("Email", "a@x")], [("Email", "b@x")], [("Email", "c@x")]] : List RawRow).getD (3 - 1 - i) []) ∧
     (processRollbackData (fun r _ => (true, "ok " ++ ((getValueCaseInsensitive r "Email").getD "")))
        "CanadaHelps" [[("Email", "a@x")], [("Email", "b@x")], [("Email", "c@x")]]).outputs =
       (processRollbackData (fun r _ => (true, "ok " ++ ((getValueCaseInsensitive r "Email").getD "")))
          "CanadaHelps" [[("Email", "a@x")], [("Email", "b@x")], [("Email", "c@x")]]).calls.map
         (fun r => augmentRow r ((fun (r : RawRow) (_ : String) =>
            (true, "ok " ++ ((getValueCaseInsensitive r "Email").getD ""))) r "CanadaHelps").2)) :=
  ⟨by decide,
   c3_rollback_reverse_order
     (fun r _ => (true, "ok " ++ ((getValueCaseInsensitive r "Email").getD "")))
     "CanadaHelps" [[("Email", "a@x")], [("Email", "b@x")], [("Email", "c@x")]] (by decide)⟩

/-- C7: rollback input emptiness is asymmetric with per-row failure — zero
data rows make the whole operation fail (exit code 1) with the service never
invoked and no output row written, whereas a non-empty file in which every
row's rollback fails still exits 0 with every row attempted and written with
its error message. -/
theorem c7_rollback_empty_vs_allfail (service : RollbackService) (t : String)
    (rows : List RawRow) :
    (rows = [] →
      (runRollbackCore service t rows).1 = 1 ∧
      (runRollbackCore service t rows).2.calls = [] ∧
      (runRollbackCore service t rows).2.outputs = []) ∧
    (rows ≠ [] → (∀ r, (service r t).1 = false) →
      (runRollbackCore service t rows).1 = 0 ∧
      (runRollbackCore service t rows).2.calls.length = rows.length ∧
      (runRollbackCore service t rows).2.successCount = 0 ∧
      (runRollbackCore service t rows).2.failCount = rows.length ∧
      (runRollbackCore service t rows).2.outputs =
        rows.reverse.map (fun r => augmentRow r (service r t).2)) := by
  constructor
  · intro h
    subst h
    exact ⟨rfl, rfl, rfl⟩
  · intro hne hfail
    have hempty : rows.isEmpty = false := by
      cases rows with
      | nil => exact absurd rfl hne
      | cons r rest => rfl
    have hrun : runRollbackCore service t rows = (0, processRollbackData service t rows) := by
      unfold runRollbackCore
      rw [hempty]
      rfl
    have hlen : (processRollbackData service t rows).calls.length = rows.length := by
      unfold processRollbackData
      rw [processRollbackRows_calls, List.length_reverse]
    have htally := processRollbackRows_allfail service t rows.reverse hfail
    refine ⟨by rw [hrun], by rw [hrun]; exact hlen, ?_, ?_, ?_⟩
    · rw [hrun]
      exact htally.1
    · rw [hrun]
      show (processRollbackRows service t rows.reverse).failCount = rows.length
      rw [htally.2, List.length_reverse]
    · rw [hrun]
      exact processRollbackRows_outputs service t rows.reverse

/-- Witness for C7: a non-empty file on which every rollback fails, checked
on both conjuncts at concrete inputs. -/
theorem c7_rollback_empty_vs_allfail_witness :
    (([[("Email", "a@x")], [("Email", "b@x")], [("Email", "c@x")]] : List RawRow) ≠ [] ∧
      (runRollbackCore (fun _ _ => (false, "API connection failed")) "CanadaHelps"
        [[("Email", "a@x")], [("Email", "b@x")], [("Email", "c@x")]]).1 = 0 ∧
      (runRollbackCore (fun _ _ => (false, "API connection failed")) "CanadaHelps"
        [[("Email", "a@x")], [("Email", "b@x")], [("Email", "c@x")]]).2.failCount = 3) ∧
    ((runRollbackCore (fun _ _ => (false, "API connection failed")) "CanadaHelps"
        ([] : List RawRow)).1 = 1 ∧
      (runRollbackCore (fun _ _ => (false, "API connection failed")) "CanadaHelps"
        ([] : List RawRow)).2.calls = []) := by
  have h3 := (c7_rollback_empty_vs_allfail (fun _ _ => (false, "API connection failed"))
    "CanadaHelps" [[("Email", "a@x")], [("Email", "b@x")], [("Email", "c@x")]]).2
    (by decide) (fun _ => rfl)
  have h0 := (c7_rollback_empty_vs_allfail (fun _ _ => (false, "API connection failed"))
    "CanadaHelps" ([] : List RawRow)).1 rfl
  exact ⟨⟨by decide, h3.1, h3.2.2.2.1⟩, h0.1, h0.2.1⟩

/-! ## Supporting lemmas: jobs -/

/-- One operation never moves a job that is already in a terminal state. -/
theorem applyJobOp_terminal_fixed (j : Job) (h : j.status.isTerminal = true)
    (op : JobOp) : applyJobOp j op = j := by
  have hnc : ¬(j.status = JobStatus.pending ∨ j.status = JobStatus.running) := by
    rintro (hc | hc) <;> rw [hc] at h <;> simp [JobStatus.isTerminal] at h
  cases op with
  | update s p =>
      show updateJobStatus j s p = j
      unfold updateJobStatus
      rw [if_pos h]
  | abort =>
      show (abortJob j).2 = j
      unfold abortJob
      rw [if_neg hnc]
/-- C4: the job lifecycle state machine — `create_job` yields `pending`;
`abort_job` from `pending` or `running` returns `True` and moves the job to
`failed`; `abort_job` on a `completed` job returns `False` and leaves it
unchanged; and no sequence of operations moves a job out of a terminal
state. -/
theorem c4_job_lifecycle :
    (∀ jid uid ns, (createJob jid uid ns).status = JobStatus.pending) ∧
    (∀ j : Job, j.status = JobStatus.pending ∨ j.status = JobStatus.running →
      (abortJob j).1 = true ∧ (abortJob j).2.status = JobStatus.failed) ∧
    (∀ j : Job, j.status = JobStatus.completed →
      (abortJob j).1 = false ∧ (abortJob j).2 = j) ∧
    (∀ (j : Job) (ops : List JobOp), j.status.isTerminal = true →
      (applyJobOps j ops).status = j.status) := by
  refine ⟨fun _ _ _ => rfl, ?_, ?_, ?_⟩
  · intro j hj
    unfold abortJob
    rw [if_pos hj]
    exact ⟨rfl, rfl⟩
  · intro j hj
    unfold abortJob
    rw [if_neg]
    · exact ⟨rfl, rfl⟩
    · rintro (h | h) <;> rw [hj] at h <;> exact JobStatus.noConfusion h
  · intro j ops hj
    induction ops with
    | nil => rfl
    | cons op rest ih =>
        show (applyJobOps (applyJobOp j op) rest).status = j.status
        rw [applyJobOp_terminal_fixed j hj op]
        exact ih

/-- Witness for C4 at concrete jobs in each relevant state. -/
theorem c4_job_lifecycle_witness :
    ((createJob "12345" "test_user" "test_nation").status = JobStatus.pending) ∧
    ((createJob "12345" "test_user" "test_nation").status = JobStatus.pending ∨
      (createJob "12345" "test_user" "test_nation").status = JobStatus.running) ∧
    ((abortJob (createJob "12345" "test_user" "test_nation")).1 = true ∧
      (abortJob (createJob "12345" "test_user" "test_nation")).2.status = JobStatus.failed) ∧
    (completedJob.status = JobStatus.completed) ∧
    ((abortJob completedJob).1 = false ∧ (abortJob completedJob).2 = completedJob) ∧
    (failedJob.status.isTerminal = true) ∧
    ((applyJobOps failedJob [JobOp.update JobStatus.running 50, JobOp.abort]).status =
      failedJob.status) := by
  have h := c4_job_lifecycle
  exact ⟨h.1 "12345" "test_user" "test_nation", Or.inl rfl,
    h.2.1 (createJob "12345" "test_user" "test_nation") (Or.inl rfl),
    rfl, h.2.2.1 completedJob rfl, rfl,
    h.2.2.2 failedJob [JobOp.update JobStatus.running 50, JobOp.abort] rfl⟩

/-! ## Supporting lemmas: snapshot sanitization -/

/-- The sanitized snapshot never carries the `oauth_tokens` key. -/
theorem sanitize_no_tokens_key (d : List (String × JVal)) :
    "oauth_tokens" ∉ (sanitizeJob d).map Prod.fst := by
  intro hmem
  obtain ⟨p, hp, hfst⟩ := List.mem_map.mp hmem
  have hfilter := (List.mem_filter.mp hp).2
  simp only [decide_eq_true_eq] at hfilter
  exact hfilter hfst

/-- Sanitization preserves the lookup of every other key. -/
theorem dictLookup_sanitize_ne (d : List (String × JVal)) (k : String)
    (hk : k ≠ "oauth_tokens") :
    dictLookup (sanitizeJob d) k = dictLookup d k := by
  induction d with
  | nil => rfl
  | cons p rest ih =>
      by_cases hp : p.1 = "oauth_tokens"
      · have hne : (p.1 == k) = false := by
          apply beq_eq_false_iff_ne.mpr
          intro h
          exact hk (h ▸ hp)
        simp only [sanitizeJob, dictLookup, List.filter_cons] at ih ⊢
        rw [if_neg (by simp [hp])]
        rw [show ((p :: rest).find? fun q => q.1 == k) = rest.find? (fun q => q.1 == k) by
          simp [List.find?_cons, hne]]
        exact ih
      · simp only [sanitizeJob, dictLookup, List.filter_cons] at ih ⊢
        rw [if_pos (by simp [hp])]
        cases hbe : (p.1 == k) with
        | true => simp [List.find?_cons, hbe]
        | false =>
            simp only [List.find?_cons, hbe]
            exact ih

/-- C9: for every job, the externally visible snapshot returned by
`get_job_status` never contains the `oauth_tokens` key, preserves every
non-sensitive field, and is identical for any two jobs differing only in
their token values. -/
theorem c9_oauth_tokens_sanitized
    (jobId userId nationSlug fileId storagePath sourceType : String)
    (t : Option (List (String × String))) :
    ("oauth_tokens" ∉ (getJobStatusSnapshot
        (createJobDict jobId userId nationSlug fileId storagePath sourceType t)).map Prod.fst) ∧
    (∀ k, k ≠ "oauth_tokens" →
      dictLookup (getJobStatusSnapshot
        (createJobDict jobId userId nationSlug fileId storagePath sourceType t)) k =
      dictLookup (createJobDict jobId userId nationSlug fileId storagePath sourceType t) k) ∧
    (∀ t1 t2 : List (String × String),
      getJobStatusSnapshot
        (createJobDict jobId userId nationSlug fileId storagePath sourceType (some t1)) =
      getJobStatusSnapshot
        (createJobDict jobId userId nationSlug fileId storagePath sourceType (some t2))) := by
  refine ⟨sanitize_no_tokens_key _, fun k hk => dictLookup_sanitize_ne _ k hk, ?_⟩
  intro t1 t2
  simp [getJobStatusSnapshot, sanitizeJob, createJobDict, List.filter_append]

/-- Witness for C9 with a concrete token bundle, exercising the
hypothesis-bearing conjunct at the key `user_id`. -/
theorem c9_oauth_tokens_sanitized_witness :
    ("oauth_tokens" ∉ (getJobStatusSnapshot
        (createJobDict "12345" "test_user" "test_nation" "f.csv" "/tmp/f.csv" "CanadaHelps"
          (some [("access_token", "secret"), ("refresh_token", "secret")]))).map Prod.fst) ∧
    (dictLookup (getJobStatusSnapshot
        (createJobDict "12345" "test_user" "test_nation" "f.csv" "/tmp/f.csv" "CanadaHelps"
          (some [("access_token", "secret"), ("refresh_token", "secret")]))) "user_id" =
      dictLookup (createJobDict "12345" "test_user" "test_nation" "f.csv" "/tmp/f.csv" "CanadaHelps"
          (some [("access_token", "secret"), ("refresh_token", "secret")])) "user_id") ∧
    (getJobStatusSnapshot (createJobDict "12345" "test_user" "test_nation" "f.csv" "/tmp/f.csv"
        "CanadaHelps" (some [("access_token", "secret"), ("refresh_token", "secret")])) =
      getJobStatusSnapshot (createJobDict "12345" "test_user" "test_nation" "f.csv" "/tmp/f.csv"
        "CanadaHelps" (some [("access_token", "other"), ("refresh_token", "other")]))) := by
  have h := c9_oauth_tokens_sanitized "12345" "test_user" "test_nation" "f.csv" "/tmp/f.csv"
    "CanadaHelps" (some [("access_token", "secret"), ("refresh_token", "secret")])
  exact ⟨h.1, h.2.1 "user_id" (by decide), h.2.2 _ _⟩

/-! ## Supporting lemmas: Mapper construction -/

/-- With no plugins registered and a parseable amount, Mapper construction
succeeds, producing the canonical record directly from the row. -/
theorem buildMapper_nil_ok (cfg : AdapterCfg) (row : RawRow) (now : DateTime)
    (a : Int × List LogEntry)
    (h : parseAmountInCents ((getValueCaseInsensitive row cfg.amountField).getD "") = .ok a) :
    buildMapper cfg [] row now =
      (.ok { firstName := (cfg.extractNames row).1
             lastName := (cfg.extractNames row).2
             email := (getValueCaseInsensitive row cfg.emailField).getD ""
             amountInCents := a.1
             succeededAt := (dateLogic cfg row now).1
             checkNumber := getValueExact row "_check_number"
             skipRow := getValueExact row "_skip_row" == some "True" },
       a.2 ++ (dateLogic cfg row now).2) := by
  simp only [buildMapper, runRowTransformers]
  rw [h]
  simp

/-- With no plugins registered and an unparsable amount, Mapper construction
raises. -/
theorem buildMapper_nil_error (cfg : AdapterCfg) (row : RawRow) (now : DateTime)
    (e : String)
    (h : parseAmountInCents ((getValueCaseInsensitive row cfg.amountField).getD "") = .error e) :
    buildMapper cfg [] row now = (.error e, []) := by
  simp only [buildMapper, runRowTransformers]
  rw [h]

/-! ## Supporting lemmas: validation messages -/

/-- Every element of the joined list appears verbatim in the rendered
message. -/
theorem joinComma_contains (l : List String) (f : String) (h : f ∈ l) (pre : String) :
    ContainsSub (pre ++ joinComma l) f := by
  induction l generalizing pre with
  | nil => cases h
  | cons x xs ih =>
      cases xs with
      | nil =>
          rcases List.mem_singleton.mp h with rfl
          exact ⟨pre, "", by rw [joinComma, String.append_empty]⟩
      | cons y ys =>
          rcases List.mem_cons.mp h with rfl | hmem
          · refine ⟨pre, ", " ++ joinComma (y :: ys), ?_⟩
            show pre ++ joinComma (f :: y :: ys) = pre ++ f ++ (", " ++ joinComma (y :: ys))
            rw [show joinComma (f :: y :: ys) = f ++ ", " ++ joinComma (y :: ys) from rfl]
            simp [String.append_assoc]
          · have hrec := ih hmem (pre ++ x ++ ", ")
            show ContainsSub (pre ++ joinComma (x :: y :: ys)) f
            rw [show joinComma (x :: y :: ys) = x ++ ", " ++ joinComma (y :: ys) from rfl]
            have heq : pre ++ (x ++ ", " ++ joinComma (y :: ys)) =
                pre ++ x ++ ", " ++ joinComma (y :: ys) := by
              simp [String.append_assoc]
            rw [heq]
            exact hrec

/-- C8: `validate_row` returns `(True, None)` exactly when every required
header is present case-insensitively (and, under the PayPal rule, at least
one of Name and Email is non-empty); when a required header is missing it
returns `False` with one combined message listing every missing field. -/
theorem c8_validate_row_contract (required : List String) (pp : Bool) (row : RawRow) :
    (validateRow required pp row = (true, none) ↔
      ((∀ f ∈ required, (getValueCaseInsensitive row f).isSome = true) ∧
       (pp = true →
         ¬(((getValueCaseInsensitive row "Name").getD "").isEmpty = true ∧
           ((getValueCaseInsensitive row "From Email Address").getD "").isEmpty = true)))) ∧
    ((∃ f ∈ required, (getValueCaseInsensitive row f).isNone = true) →
      (validateRow required pp row).1 = false ∧
      ∃ msg, (validateRow required pp row).2 = some msg ∧
        ∀ g ∈ required, (getValueCaseInsensitive row g).isNone = true → ContainsSub msg g) := by
  constructor
  · unfold validateRow
    cases hm : required.filter (fun f => (getValueCaseInsensitive row f).isNone) with
    | nil =>
        simp only [List.isEmpty_nil, Bool.not_true, Bool.false_eq_true, if_false, ite_false]
        have hall : ∀ f ∈ required, (getValueCaseInsensitive row f).isSome = true := by
          intro f hf
          have hnn := List.filter_eq_nil_iff.mp hm f hf
          cases hov : getValueCaseInsensitive row f with
          | none => rw [hov] at hnn; exact absurd rfl hnn
          | some v => rfl
        by_cases hcond : (pp && ((getValueCaseInsensitive row "Name").getD "").isEmpty &&
            ((getValueCaseInsensitive row "From Email Address").getD "").isEmpty) = true
        · rw [if_pos hcond]
          constructor
          · intro habs
            exact absurd (congrArg Prod.fst habs) (by simp)
          · rintro ⟨-, hpp⟩
            simp only [Bool.and_eq_true] at hcond
            exact absurd ⟨hcond.1.2, hcond.2⟩ (hpp hcond.1.1)
        · rw [if_neg hcond]
          constructor
          · intro _
            refine ⟨hall, ?_⟩
            intro hppt ⟨hn, he⟩
            exact hcond (by rw [hppt, hn, he]; rfl)
          · intro _
            rfl
    | cons m ms =>
        simp only [List.isEmpty_cons, Bool.not_false, if_true, ite_true]
        constructor
        · intro habs
          exact absurd (congrArg Prod.fst habs) (by simp)
        · rintro ⟨hall, -⟩
          have hmem : m ∈ required.filter (fun f => (getValueCaseInsensitive row f).isNone) := by
            rw [hm]; exact List.mem_cons_self m ms
          have ⟨hmr, hmn⟩ := List.mem_filter.mp hmem
          cases hov : getValueCaseInsensitive row m with
          | none =>
              have h2 := hall m hmr
              rw [hov] at h2
              exact Bool.noConfusion h2
          | some v =>
              rw [hov] at hmn
              exact Bool.noConfusion hmn
  · rintro ⟨f, hf, hfn⟩
    have hmem : f ∈ required.filter (fun g => (getValueCaseInsensitive row g).isNone) :=
      List.mem_filter.mpr ⟨hf, hfn⟩
    have hne : (required.filter (fun g => (getValueCaseInsensitive row g).isNone)).isEmpty = false := by
      cases hm : required.filter (fun g => (getValueCaseInsensitive row g).isNone) with
      | nil => rw [hm] at hmem; cases hmem
      | cons a l => rfl
    have hval : validateRow required pp row =
        (false, some ("Missing required fields: " ++
          joinComma (required.filter (fun g => (getValueCaseInsensitive row g).isNone)))) := by
      simp only [validateRow, hne, Bool.not_false, if_true, ite_true]
    rw [hval]
    refine ⟨rfl, "Missing required fields: " ++
      joinComma (required.filter (fun g => (getValueCaseInsensitive row g).isNone)), rfl, ?_⟩
    intro g hg hgn
    exact joinComma_contains _ g (List.mem_filter.mpr ⟨hg, hgn⟩) _

/-- Witness for C8: the incomplete CanadaHelps row exercises the missing-field
branch, and the complete PayPal row the `(True, None)` branch. -/
theorem c8_validate_row_contract_witness :
    ((∃ f ∈ chRequiredFields, (getValueCaseInsensitive incompleteCHRow f).isNone = true) ∧
      ((validateRow chRequiredFields false incompleteCHRow).1 = false ∧
        ∃ msg, (validateRow chRequiredFields false incompleteCHRow).2 = some msg ∧
          ∀ g ∈ chRequiredFields, (getValueCaseInsensitive incompleteCHRow g).isNone = true →
            ContainsSub msg g)) ∧
    validateRow ppRequiredFields true samplePPRow = (true, none) := by
  refine ⟨⟨⟨"AMOUNT", by decide, by decide⟩, ?_⟩, ?_⟩
  · exact (c8_validate_row_contract chRequiredFields false incompleteCHRow).2
      ⟨"AMOUNT", by decide, by decide⟩
  · exact (c8_validate_row_contract ppRequiredFields true samplePPRow).1.mpr
      ⟨by decide, by decide⟩

/-- C10: for every PayPal row the canonical first name is the first
whitespace-separated token of the Name field and the canonical last name is
the last token when there are at least two (otherwise empty), so
`Dr. John Smith Jr.` yields `Dr.`/`Jr.`, a single token yields an empty last
name, and an empty Name yields both names empty. -/
theorem c10_paypal_name_parsing (row : RawRow) (now : DateTime)
    (a : Int × List LogEntry)
    (h : parseAmountInCents ((getValueCaseInsensitive row payPalCfg.amountField).getD "") = .ok a) :
    (∃ rec logs, buildMapper payPalCfg [] row now = (.ok rec, logs) ∧
      rec.firstName = (nameTokens ((getValueCaseInsensitive row "Name").getD "")).headD "" ∧
      rec.lastName =
        (if 2 ≤ (nameTokens ((getValueCaseInsensitive row "Name").getD "")).length
         then (nameTokens ((getValueCaseInsensitive row "Name").getD "")).getLastD ""
         else "")) ∧
    splitName "Dr. John Smith Jr." = ("Dr.", "Jr.") ∧
    splitName "John" = ("John", "") ∧
    splitName "" = ("", "") := by
  refine ⟨⟨_, _, buildMapper_nil_ok payPalCfg row now a h, rfl, rfl⟩,
    by decide, by decide, by decide⟩

/-- Witness for C10 at the sample PayPal row, whose Name field is
`Dr. John Smith Jr.`. -/
theorem c10_paypal_name_parsing_witness :
    (parseAmountInCents ((getValueCaseInsensitive samplePPRow payPalCfg.amountField).getD "") =
      Except.ok (2500, [])) ∧
    ((∃ rec logs, buildMapper payPalCfg [] samplePPRow sampleNow = (.ok rec, logs) ∧
      rec.firstName = (nameTokens ((getValueCaseInsensitive samplePPRow "Name").getD "")).headD "" ∧
      rec.lastName =
        (if 2 ≤ (nameTokens ((getValueCaseInsensitive samplePPRow "Name").getD "")).length
         then (nameTokens ((getValueCaseInsensitive samplePPRow "Name").getD "")).getLastD ""
         else "")) ∧
    splitName "Dr. John Smith Jr." = ("Dr.", "Jr.") ∧
    splitName "John" = ("John", "") ∧
    splitName "" = ("", "")) :=
  ⟨by rfl, c10_paypal_name_parsing samplePPRow sampleNow (2500, []) (by rfl)⟩

/-! ## Supporting lemmas: plugin execution and loading -/

/-- Mapper construction with an arbitrary plugin list and a parseable amount
on the transformed row: the record is built from the transformed row and the
plugin logs are retained. -/
theorem buildMapper_ok_general (cfg : AdapterCfg) (plugins : List (String × RowPlugin))
    (row : RawRow) (now : DateTime) (a : Int × List LogEntry)
    (h : parseAmountInCents ((getValueCaseInsensitive
        (runRowTransformers plugins row).1 cfg.amountField).getD "") = .ok a) :
    buildMapper cfg plugins row now =
      (.ok { firstName := (cfg.extractNames (runRowTransformers plugins row).1).1
             lastName := (cfg.extractNames (runRowTransformers plugins row).1).2
             email := (getValueCaseInsensitive (runRowTransformers plugins row).1
               cfg.emailField).getD ""
             amountInCents := a.1
             succeededAt := (dateLogic cfg (runRowTransformers plugins row).1 now).1
             checkNumber := getValueExact (runRowTransformers plugins row).1 "_check_number"
             skipRow := getValueExact (runRowTransformers plugins row).1 "_skip_row" ==
               some "True" },
       (runRowTransformers plugins row).2 ++ a.2 ++
         (dateLogic cfg (runRowTransformers plugins row).1 now).2) := by
  simp only [buildMapper]
  rw [h]

/-- A plugin list whose run rewrites the row to `r2` without logging makes
construction agree with plugin-free construction on `r2`. -/
theorem buildMapper_transformed (cfg : AdapterCfg) (ps : List (String × RowPlugin))
    (row r2 : RawRow) (now : DateTime) (h : runRowTransformers ps row = (r2, [])) :
    buildMapper cfg ps row now = buildMapper cfg [] r2 now := by
  simp only [buildMapper, h, runRowTransformers]

/-- A failing transformer in the middle of the list is skipped: the
remaining plugins run from the row state as of before the failure, and the
failure is logged with the plugin name, in place. -/
theorem runRowTransformers_append_error (ps1 ps2 : List (String × RowPlugin))
    (nm : String) (f : RowPlugin) (row : RawRow) (e : String)
    (hf : f (runRowTransformers ps1 row).1 = .error e) :
    runRowTransformers (ps1 ++ (nm, f) :: ps2) row =
      ((runRowTransformers ps2 (runRowTransformers ps1 row).1).1,
       (runRowTransformers ps1 row).2 ++
         (LogLevel.error, "Error in row transformer plugin " ++ nm ++ ": " ++ e) ::
           (runRowTransformers ps2 (runRowTransformers ps1 row).1).2) := by
  revert hf
  induction ps1 generalizing row with
  | nil =>
      intro hf
      have hf' : f row = .error e := hf
      simp only [List.nil_append, runRowTransformers, hf']
  | cons p ps1' ih =>
      intro hf
      obtain ⟨n1, g⟩ := p
      cases hg : g row with
      | ok row2 =>
          have hstep : runRowTransformers ((n1, g) :: ps1') row =
              runRowTransformers ps1' row2 := by
            simp only [runRowTransformers, hg]
          rw [hstep] at hf
          show runRowTransformers ((n1, g) :: (ps1' ++ (nm, f) :: ps2)) row = _
          rw [show runRowTransformers ((n1, g) :: (ps1' ++ (nm, f) :: ps2)) row =
            runRowTransformers (ps1' ++ (nm, f) :: ps2) row2 by
              simp only [runRowTransformers, hg]]
          rw [hstep]
          exact ih row2 hf
      | error e1 =>
          have hstep : runRowTransformers ((n1, g) :: ps1') row =
              ((runRowTransformers ps1' row).1,
               (LogLevel.error, "Error in row transformer plugin " ++ n1 ++ ": " ++ e1) ::
                 (runRowTransformers ps1' row).2) := by
            simp only [runRowTransformers, hg]
          rw [hstep] at hf
          have hf' : f (runRowTransformers ps1' row).1 = .error e := hf
          have hrec := ih row hf'
          show runRowTransformers ((n1, g) :: (ps1' ++ (nm, f) :: ps2)) row = _
          rw [show runRowTransformers ((n1, g) :: (ps1' ++ (nm, f) :: ps2)) row =
            ((runRowTransformers (ps1' ++ (nm, f) :: ps2) row).1,
             (LogLevel.error, "Error in row transformer plugin " ++ n1 ++ ": " ++ e1) ::
               (runRowTransformers (ps1' ++ (nm, f) :: ps2) row).2 ) by
              simp only [runRowTransformers, hg]]
          rw [hstep, hrec]
          simp

/-- C5: a raising row-transformer plugin never propagates out of the Mapper
constructor — the remaining registered plugins still run from the
pre-failure row state, the error is logged with the plugin name, and (when
the amount on the resulting row parses) a canonical record is still
produced with that error entry among the logs. -/
theorem c5_plugin_isolation (cfg : AdapterCfg) (ps1 ps2 : List (String × RowPlugin))
    (nm : String) (f : RowPlugin) (row : RawRow) (now : DateTime) (e : String)
    (hf : f (runRowTransformers ps1 row).1 = .error e) :
    runRowTransformers (ps1 ++ (nm, f) :: ps2) row =
      ((runRowTransformers ps2 (runRowTransformers ps1 row).1).1,
       (runRowTransformers ps1 row).2 ++
         (LogLevel.error, "Error in row transformer plugin " ++ nm ++ ": " ++ e) ::
           (runRowTransformers ps2 (runRowTransformers ps1 row).1).2) ∧
    (∀ a, parseAmountInCents ((getValueCaseInsensitive
        (runRowTransformers ps2 (runRowTransformers ps1 row).1).1 cfg.amountField).getD "") =
          .ok a →
      ∃ rec logs, buildMapper cfg (ps1 ++ (nm, f) :: ps2) row now = (.ok rec, logs) ∧
        (LogLevel.error, "Error in row transformer plugin " ++ nm ++ ": " ++ e) ∈ logs) := by
  have happ := runRowTransformers_append_error ps1 ps2 nm f row e hf
  refine ⟨happ, ?_⟩
  intro a ha
  have ha' : parseAmountInCents ((getValueCaseInsensitive
      (runRowTransformers (ps1 ++ (nm, f) :: ps2) row).1 cfg.amountField).getD "") = .ok a := by
    rw [happ]
    exact ha
  refine ⟨_, _, buildMapper_ok_general cfg _ row now a ha', ?_⟩
  rw [happ]
  simp

/-- Witness for C5: the always-raising plugin on the sample CanadaHelps row
still yields a canonical record, with the error logged. -/
theorem c5_plugin_isolation_witness :
    (pluginBroken (runRowTransformers [] sampleCHRow).1 =
      Except.error "Intentional error for testing") ∧
    (∃ rec logs, buildMapper canadaHelpsCfg [("broken_plugin", pluginBroken)]
        sampleCHRow sampleNow = (.ok rec, logs) ∧
      (LogLevel.error,
        "Error in row transformer plugin broken_plugin: Intentional error for testing") ∈ logs) :=
  ⟨rfl,
   (c5_plugin_isolation canadaHelpsCfg [] [] "broken_plugin" pluginBroken sampleCHRow
      sampleNow "Intentional error for testing" rfl).2 (2500, []) (by rfl)⟩

/-- Two plugin files in alphabetical order load into the registry in that
order regardless of enumeration order. -/
theorem loadPlugins_two_sorted (fa fb : PluginFile) (ra rb : Registration)
    (hle : fileLe fa fb = true) (hgt : fileLe fb fa = false)
    (hua : startsUnderscore fa.fname = false) (hub : startsUnderscore fb.fname = false)
    (hca : fa.content = .ok [ra]) (hcb : fb.content = .ok [rb]) :
    (loadPlugins [fa, fb]).1 = [ra, rb] ∧ (loadPlugins [fb, fa]).1 = [ra, rb] := by
  have hsort1 : sortFiles [fa, fb] = [fa, fb] := by
    simp [sortFiles, insertFile, hle]
  have hsort2 : sortFiles [fb, fa] = [fa, fb] := by
    simp [sortFiles, insertFile, hgt]
  have hload : (loadSorted [fa, fb]).1 = [ra, rb] := by
    simp [loadSorted, hua, hub, hca, hcb]
  constructor
  · rw [loadPlugins, hsort1]
    exact hload
  · rw [loadPlugins, hsort2]
    exact hload

/-- C6: two row-transformer plugins registered from plugin files execute
during Mapper construction in the alphabetical order of their file names,
the later plugin receiving the row as mutated by the earlier one, so the
construction equals plugin-free construction on the doubly-transformed
row. -/
theorem c6_plugin_ordering (fa fb : PluginFile) (ra rb : Registration)
    (hle : fileLe fa fb = true) (hgt : fileLe fb fa = false)
    (hua : startsUnderscore fa.fname = false) (hub : startsUnderscore fb.fname = false)
    (hca : fa.content = .ok [ra]) (hcb : fb.content = .ok [rb])
    (hta : ra.ptype = "row_transformer") (htb : rb.ptype = "row_transformer")
    (cfg : AdapterCfg) (row r1 r2 : RawRow) (now : DateTime)
    (hp : ra.fn row = .ok r1) (hq : rb.fn r1 = .ok r2) :
    getPluginsOfType (loadPlugins [fa, fb]).1 "row_transformer" =
      [(ra.pname, ra.fn), (rb.pname, rb.fn)] ∧
    getPluginsOfType (loadPlugins [fb, fa]).1 "row_transformer" =
      [(ra.pname, ra.fn), (rb.pname, rb.fn)] ∧
    runRowTransformers [(ra.pname, ra.fn), (rb.pname, rb.fn)] row = (r2, []) ∧
    buildMapper cfg [(ra.pname, ra.fn), (rb.pname, rb.fn)] row now =
      buildMapper cfg [] r2 now := by
  obtain ⟨hl1, hl2⟩ := loadPlugins_two_sorted fa fb ra rb hle hgt hua hub hca hcb
  have hreg : getPluginsOfType [ra, rb] "row_transformer" =
      [(ra.pname, ra.fn), (rb.pname, rb.fn)] := by
    simp [getPluginsOfType, hta, htb]
  have hrun : runRowTransformers [(ra.pname, ra.fn), (rb.pname, rb.fn)] row = (r2, []) := by
    simp only [runRowTransformers, hp, hq]
  exact ⟨by rw [hl1, hreg], by rw [hl2, hreg], hrun,
    buildMapper_transformed cfg _ row r2 now hrun⟩

/-- Witness for C6: the sanitize/defaults plugin pair from files
`01_sanitize.py` and `02_defaults.py` on the anonymous-donor row. -/
theorem c6_plugin_ordering_witness :
    (fileLe pluginFileA pluginFileB = true ∧ fileLe pluginFileB pluginFileA = false ∧
      pluginAnon anonRow = .ok anonRow1 ∧ pluginDefaults anonRow1 = .ok anonRow2) ∧
    (getPluginsOfType (loadPlugins [pluginFileA, pluginFileB]).1 "row_transformer" =
      [("sanitize_anon", pluginAnon), ("set_defaults", pluginDefaults)] ∧
    getPluginsOfType (loadPlugins [pluginFileB, pluginFileA]).1 "row_transformer" =
      [("sanitize_anon", pluginAnon), ("set_defaults", pluginDefaults)] ∧
    runRowTransformers [("sanitize_anon", pluginAnon), ("set_defaults", pluginDefaults)]
      anonRow = (anonRow2, []) ∧
    buildMapper canadaHelpsCfg
      [("sanitize_anon", pluginAnon), ("set_defaults", pluginDefaults)] anonRow sampleNow =
      buildMapper canadaHelpsCfg [] anonRow2 sampleNow) :=
  ⟨⟨by decide, by decide, by rfl, by rfl⟩,
   c6_plugin_ordering pluginFileA pluginFileB
     ⟨"row_transformer", "sanitize_anon", pluginAnon⟩
     ⟨"row_transformer", "set_defaults", pluginDefaults⟩
     (by decide) (by decide) (by decide) (by decide) (by rfl) (by rfl) rfl rfl
     canadaHelpsCfg anonRow anonRow1 anonRow2 sampleNow (by rfl) (by rfl)⟩

/-- C1: the Mapper's three-way amount policy — a non-empty numeric amount
(currency symbols and separators stripped) yields
`round(value * 100)` cents, including negative amounts; a present-but-empty
amount yields 0 with construction succeeding; a non-numeric amount after
stripping makes the constructor raise. -/
theorem c1_amount_three_way_policy (cfg : AdapterCfg) (row : RawRow) (now : DateTime)
    (a : String) (ha : getValueCaseInsensitive row cfg.amountField = some a) :
    (∀ m fr, (cleanAmount a).isEmpty = false → parseDecimal (cleanAmount a) = some (m, fr) →
      ∃ rec logs, buildMapper cfg [] row now = (.ok rec, logs) ∧
        rec.amountInCents = specRoundHalfEven (decimalRat m fr * 100)) ∧
    (a = "" → ∃ rec logs, buildMapper cfg [] row now = (.ok rec, logs) ∧
      rec.amountInCents = 0) ∧
    ((cleanAmount a).isEmpty = false → parseDecimal (cleanAmount a) = none →
      ∃ e logs, buildMapper cfg [] row now = (.error e, logs)) := by
  have hgd : (getValueCaseInsensitive row cfg.amountField).getD "" = a := by
    rw [ha]
    rfl
  refine ⟨?_, ?_, ?_⟩
  · intro m fr hne hdec
    have hpa : parseAmountInCents ((getValueCaseInsensitive row cfg.amountField).getD "") =
        .ok (roundHalfEvenDiv (m * 100) ((10 : Int) ^ fr), []) := by
      rw [hgd]
      simp only [parseAmountInCents, hne, hdec, Bool.false_eq_true, if_false, ite_false]
    refine ⟨_, _, buildMapper_nil_ok cfg row now _ hpa, ?_⟩
    exact cents_eq_specRound m fr
  · intro hae
    subst hae
    have hpa : parseAmountInCents ((getValueCaseInsensitive row cfg.amountField).getD "") =
        .ok (0, [(LogLevel.warning, "Empty amount, defaulting to 0")]) := by
      rw [hgd]
      rfl
    exact ⟨_, _, buildMapper_nil_ok cfg row now _ hpa, rfl⟩
  · intro hne hdec
    have hpa : parseAmountInCents ((getValueCaseInsensitive row cfg.amountField).getD "") =
        .error ("Invalid amount format: " ++ a) := by
      rw [hgd]
      simp only [parseAmountInCents, hne, hdec, Bool.false_eq_true, if_false, ite_false]
    exact ⟨_, _, buildMapper_nil_error cfg row now _ hpa⟩

/-- Witness for C1 on the three concrete CanadaHelps rows: amount `25.00`
(2500 cents), empty amount (0 cents, construction succeeds), and amount
`invalid` (construction raises). -/
theorem c1_amount_three_way_policy_witness :
    (getValueCaseInsensitive sampleCHRow canadaHelpsCfg.amountField = some "25.00" ∧
      ∃ rec logs, buildMapper canadaHelpsCfg [] sampleCHRow sampleNow = (.ok rec, logs) ∧
        rec.amountInCents = specRoundHalfEven (decimalRat 2500 2 * 100)) ∧
    (getValueCaseInsensitive sampleCHRowEmptyAmount canadaHelpsCfg.amountField = some "" ∧
      ∃ rec logs, buildMapper canadaHelpsCfg [] sampleCHRowEmptyAmount sampleNow =
        (.ok rec, logs) ∧ rec.amountInCents = 0) ∧
    (getValueCaseInsensitive sampleCHRowBadAmount canadaHelpsCfg.amountField = some "invalid" ∧
      ∃ e logs, buildMapper canadaHelpsCfg [] sampleCHRowBadAmount sampleNow =
        (.error e, logs)) :=
  ⟨⟨by rfl, (c1_amount_three_way_policy canadaHelpsCfg sampleCHRow sampleNow "25.00"
      (by rfl)).1 2500 2 (by rfl) (by rfl)⟩,
   ⟨by rfl, (c1_amount_three_way_policy canadaHelpsCfg sampleCHRowEmptyAmount sampleNow ""
      (by rfl)).2.1 rfl⟩,
   ⟨by rfl, (c1_amount_three_way_policy canadaHelpsCfg sampleCHRowBadAmount sampleNow "invalid"
      (by rfl)).2.2 (by rfl) (by rfl)⟩⟩

/-- C2: date/time problems never make the Mapper constructor raise — with
both fields missing, construction succeeds, `succeeded_at` is the valid
ISO-8601 current-time fallback, and exactly one warning citing the row's
transaction identifier plus at least one info-level fallback message are
logged; with a present but unparsable date it also succeeds with the valid
current-time fallback. -/
theorem c2_date_fallback_never_raises (cfg : AdapterCfg) (row : RawRow) (now : DateTime)
    (c : Int) (hnow : now.Valid)
    (hamt : parseAmountInCents ((getValueCaseInsensitive row cfg.amountField).getD "") =
      .ok (c, [])) :
    ((getValueCaseInsensitive row cfg.dateField = none ∧
      getValueCaseInsensitive row cfg.timeField = none) →
      ∃ rec logs, buildMapper cfg [] row now = (.ok rec, logs) ∧
        rec.succeededAt = isoRender now ∧
        isValidISO8601 rec.succeededAt = true ∧
        (logs.filter (fun l => l.1 == LogLevel.warning)).length = 1 ∧
        (∃ w ∈ logs, w.1 = LogLevel.warning ∧
          ContainsSub w.2 ((getValueCaseInsensitive row cfg.txnField).getD "")) ∧
        1 ≤ (logs.filter (fun l => l.1 == LogLevel.info)).length) ∧
    (∀ d, getValueCaseInsensitive row cfg.dateField = some d →
      cfg.parseDate d ((getValueCaseInsensitive row cfg.timeField).getD "") = none →
      ∃ rec logs, buildMapper cfg [] row now = (.ok rec, logs) ∧
        rec.succeededAt = isoRender now ∧
        isValidISO8601 rec.succeededAt = true) := by
  constructor
  · rintro ⟨hd, ht⟩
    have hdl : dateLogic cfg row now =
        (isoRender now,
         [(LogLevel.warning, "Missing date or time for record " ++
            ((getValueCaseInsensitive row cfg.txnField).getD "")),
          (LogLevel.info, "MISSING DATA FALLBACK: using current time for record " ++
            ((getValueCaseInsensitive row cfg.txnField).getD ""))]) := by
      simp only [dateLogic, hd, ht]
    refine ⟨_, _, buildMapper_nil_ok cfg row now _ hamt, ?_, ?_, ?_, ?_, ?_⟩
    · show (dateLogic cfg row now).1 = isoRender now
      rw [hdl]
    · show isValidISO8601 (dateLogic cfg row now).1 = true
      rw [hdl]
      exact isoRender_valid now hnow
    · show ((((c, ([] : List LogEntry)).2) ++ (dateLogic cfg row now).2).filter
        (fun l => l.1 == LogLevel.warning)).length = 1
      rw [hdl]
      rfl
    · refine ⟨(LogLevel.warning, "Missing date or time for record " ++
        ((getValueCaseInsensitive row cfg.txnField).getD "")), ?_, rfl, ?_⟩
      · show _ ∈ ((c, ([] : List LogEntry)).2) ++ (dateLogic cfg row now).2
        rw [hdl]
        simp
      · exact ⟨"Missing date or time for record ", "", by rw [String.append_empty]⟩
    · show 1 ≤ ((((c, ([] : List LogEntry)).2) ++ (dateLogic cfg row now).2).filter
        (fun l => l.1 == LogLevel.info)).length
      rw [hdl]
      exact Nat.le_refl 1
  · intro d hd hparse
    have hdl : dateLogic cfg row now =
        (isoRender now,
         [(LogLevel.info, "DATE PARSE FALLBACK: using current time for record " ++
            ((getValueCaseInsensitive row cfg.txnField).getD ""))]) := by
      cases ht : getValueCaseInsensitive row cfg.timeField with
      | none =>
          rw [ht] at hparse
          simp only [Option.getD_none] at hparse
          simp only [dateLogic, hd, ht, Option.getD_some, Option.getD_none]
          rw [hparse]
      | some t =>
          rw [ht] at hparse
          simp only [Option.getD_some] at hparse
          simp only [dateLogic, hd, ht, Option.getD_some]
          rw [hparse]
    refine ⟨_, _, buildMapper_nil_ok cfg row now _ hamt, ?_, ?_⟩
    · show (dateLogic cfg row now).1 = isoRender now
      rw [hdl]
    · show isValidISO8601 (dateLogic cfg row now).1 = true
      rw [hdl]
      exact isoRender_valid now hnow

/-- Witness for C2 on the CanadaHelps row without date/time fields and on
the row with an unparsable date. -/
theorem c2_date_fallback_never_raises_witness :
    ((getValueCaseInsensitive sampleCHRowNoDate canadaHelpsCfg.dateField = none ∧
      getValueCaseInsensitive sampleCHRowNoDate canadaHelpsCfg.timeField = none) ∧
     (∃ rec logs, buildMapper canadaHelpsCfg [] sampleCHRowNoDate sampleNow = (.ok rec, logs) ∧
        rec.succeededAt = isoRender sampleNow ∧
        isValidISO8601 rec.succeededAt = true ∧
        (logs.filter (fun l => l.1 == LogLevel.warning)).length = 1 ∧
        (∃ w ∈ logs, w.1 = LogLevel.warning ∧
          ContainsSub w.2 ((getValueCaseInsensitive sampleCHRowNoDate
            canadaHelpsCfg.txnField).getD "")) ∧
        1 ≤ (logs.filter (fun l => l.1 == LogLevel.info)).length)) ∧
    ((getValueCaseInsensitive sampleCHRowBadDate canadaHelpsCfg.dateField =
        some "invalid-date") ∧
     (∃ rec logs, buildMapper canadaHelpsCfg [] sampleCHRowBadDate sampleNow = (.ok rec, logs) ∧
        rec.succeededAt = isoRender sampleNow ∧
        isValidISO8601 rec.succeededAt = true)) :=
  ⟨⟨⟨rfl, rfl⟩,
    (c2_date_fallback_never_raises canadaHelpsCfg sampleCHRowNoDate sampleNow 2500
      (by decide) (by rfl)).1 ⟨rfl, rfl⟩⟩,
   ⟨rfl,
    (c2_date_fallback_never_raises canadaHelpsCfg sampleCHRowBadDate sampleNow 2500
      (by decide) (by rfl)).2 "invalid-date" rfl (by rfl)⟩⟩

end CdflowSpec
